import Mathlib

/-!
Shallow embedding of the riskformgen rule/condition compiler
(`src/models.py`, `src/config.py`, `src/render.py`, `src/parse.py`).

Python strings become `String`, tuples/lists become `List`, dicts become
association lists (`List (String × _)`) looked up first-match, `None`
becomes `none`, and code that raises `ValueError`/`TypeError` is embedded
as `Except String _`.  The JavaScript expressions emitted by the various
`to_js` methods are embedded by their evaluation semantics over a live
answer store (`Answers` below), matching the runtime contract: scalar
string answers for single-answer questions, arrays of strings for
multi-select, absent keys for unanswered questions.
-/

namespace Riskformgen

/-- Python `sep.join(l)`: empty string for an empty list, the sole element
for a singleton, otherwise the elements interleaved with `sep`. -/
def joinWith (sep : String) : List String → String
  | [] => ""
  | [x] => x
  | x :: y :: xs => x ++ sep ++ joinWith sep (y :: xs)

/-- First-match association-list lookup, embedding Python `dict` access
(`d.get(k)` / `d[k]`); Python dict keys are unique, so first-match agrees
with dict semantics. -/
def alookup {α : Type} (l : List (String × α)) (k : String) : Option α :=
  (l.find? fun p => p.1 == k).map (·.2)

-- ---------------------------------------------------------------------------
-- config.py: scales and risk matrix
-- ---------------------------------------------------------------------------

/-- `config.LIKELIHOODS` (ascending severity). -/
def LIKELIHOODS : List String := ["rare", "unlikely", "possible", "likely", "almost_certain"]

/-- `config.CONSEQUENCES` (ascending severity). -/
def CONSEQUENCES : List String := ["minor", "medium", "major"]

/-- `config.RISK_LEVELS` (ascending severity). -/
def RISK_LEVELS : List String := ["not_applicable", "low", "medium", "high"]

/-- `config.RISK_MATRIX`: nested dict mapping likelihood, then consequence,
to a risk level. -/
def RISK_MATRIX : List (String × List (String × String)) :=
  [ ("rare",           [("minor", "low"),    ("medium", "low"),    ("major", "medium")]),
    ("unlikely",       [("minor", "low"),    ("medium", "medium"), ("major", "medium")]),
    ("possible",       [("minor", "medium"), ("medium", "medium"), ("major", "high")]),
    ("likely",         [("minor", "medium"), ("medium", "high"),   ("major", "high")]),
    ("almost_certain", [("minor", "high"),   ("medium", "high"),   ("major", "high")]) ]

/-- `RISK_MATRIX[likelihood][consequence]` as a partial lookup. -/
def matrixLookup (likelihood consequence : String) : Option String :=
  (alookup RISK_MATRIX likelihood).bind fun row => alookup row consequence

/-- Rank of a risk level in the ascending `RISK_LEVELS` scale
(`not_applicable` = 0 .. `high` = 3); unknown levels rank 0. -/
def levelRank : Option String → Nat
  | some lvl => RISK_LEVELS.indexOf lvl
  | none => 0

-- ---------------------------------------------------------------------------
-- Runtime answer store (the evaluation contract for compiled JS)
-- ---------------------------------------------------------------------------

/-- A live answer value: a scalar string (yes/no, single-choice, free text)
or an array of strings (multi-select). -/
inductive AnswerVal where
  | str (s : String)
  | arr (l : List String)
deriving DecidableEq, Repr

/-- The live answer store keyed by question id; `none` means unanswered. -/
def Answers : Type := String → Option AnswerVal

/-- JS `answers[id] === v` for a string literal `v`: strict equality, false
for an absent answer and false for an array answer (different JS type). -/
def jsStrEq : Option AnswerVal → String → Bool
  | some (.str s), v => s == v
  | _, _ => false

/-- JS `(answers[qid] || []).includes(v)`: an absent answer defaults to the
empty array; an array answer tests membership; a string answer is truthy
unless empty (empty string falls through to `[]`), and `String.includes`
tests substring containment. -/
def jsOrEmptyIncludes : Option AnswerVal → String → Bool
  | none, _ => false
  | some (.arr l), v => l.contains v
  | some (.str s), v => if s = "" then false else decide (v.data <:+: s.data)

/-- `models._js_result` builds `{likelihood: l, consequence: c}` emitting
`null` when the Python value is falsy (`None` or the empty string): this
embeds the truthiness test `json.dumps(x) if x else "null"`. -/
def jsResultField : Option String → Option String
  | some s => if s = "" then none else some s
  | none => none

/-- The uniform `{likelihood, consequence}` outcome record produced by a
fired rule (each dimension `null`/`none` when unspecified). -/
structure Outcome where
  likelihood : Option String
  consequence : Option String
deriving DecidableEq, Repr

-- ---------------------------------------------------------------------------
-- models.py: conditions and their compiled JS
-- ---------------------------------------------------------------------------

/-- The visibility-condition AST (`Equals | Contains | All | Any | Not`). -/
inductive Condition where
  | equals (question_id value : String)
  | contains (question_id value : String)
  | all (conditions : List Condition)
  | any (conditions : List Condition)
  | not (condition : Condition)
deriving Repr

/-- `json.dumps` on a string with default flags: wrap in double quotes,
escaping backslash, double quote, and the common control characters
(other characters pass through; the `ensure_ascii` escaping of non-ASCII
characters is not modelled, as no claim depends on it). -/
def jsonDumpsStr (s : String) : String :=
  "\"" ++ String.mk (s.data.flatMap fun c =>
    if c = '\\' then ['\\', '\\']
    else if c = '"' then ['\\', '"']
    else if c = '\n' then ['\\', 'n']
    else if c = '\t' then ['\\', 't']
    else if c = '\r' then ['\\', 'r']
    else [c]) ++ "\""

mutual

/-- The compiled JS source text of a condition (`Condition.to_js` in
`models.py`): `All` joins its parenthesized children with `" && "`, `Any`
with `" || "`, `Not` wraps in `!(...)`. -/
def Condition.to_js : Condition → String
  | .equals q v => "answers[" ++ jsonDumpsStr q ++ "] === " ++ jsonDumpsStr v
  | .contains q v =>
      "(answers[" ++ jsonDumpsStr q ++ "] || []).includes(" ++ jsonDumpsStr v ++ ")"
  | .all cs => joinWith " && " (conditionListJs cs)
  | .any cs => joinWith " || " (conditionListJs cs)
  | .not c => "!(" ++ Condition.to_js c ++ ")"

/-- The generator `(f"({c.to_js()})" for c in conditions)`: each child's
compiled JS, individually parenthesized, in order. -/
def conditionListJs : List Condition → List String
  | [] => []
  | c :: cs => ("(" ++ Condition.to_js c ++ ")") :: conditionListJs cs

end

-- ---------------------------------------------------------------------------
-- models.py: risk rules
-- ---------------------------------------------------------------------------

/-- `AnyYesRule` data fields. -/
structure AnyYesRule where
  question_ids : List String
  likelihood : Option String
  consequence : Option String
deriving DecidableEq, Repr

/-- `AnyYesRule.__post_init__`: constructing with both `likelihood` and
`consequence` equal to `None` raises `ValueError`. -/
def AnyYesRule.mk? (question_ids : List String)
    (likelihood consequence : Option String) : Except String AnyYesRule :=
  if likelihood = none ∧ consequence = none then
    .error "AnyYesRule requires at least one of likelihood or consequence"
  else
    .ok ⟨question_ids, likelihood, consequence⟩

/-- `AnyYesRule.referenced_question_ids`. -/
def AnyYesRule.referenced_question_ids (r : AnyYesRule) : List String :=
  r.question_ids

/-- `CountYesRule` data fields (`threshold` is a Python `int`). -/
structure CountYesRule where
  question_ids : List String
  threshold : Int
  likelihood : Option String
  consequence : Option String
deriving DecidableEq, Repr

/-- `CountYesRule.__post_init__`: both dimensions `None` raises
`ValueError`. -/
def CountYesRule.mk? (question_ids : List String) (threshold : Int)
    (likelihood consequence : Option String) : Except String CountYesRule :=
  if likelihood = none ∧ consequence = none then
    .error "CountYesRule requires at least one of likelihood or consequence"
  else
    .ok ⟨question_ids, threshold, likelihood, consequence⟩

/-- `CountYesRule.referenced_question_ids`. -/
def CountYesRule.referenced_question_ids (r : CountYesRule) : List String :=
  r.question_ids

/-- Evaluation of the JS compiled by `CountYesRule.to_js`:
`ids.filter(id => this.answers[id] === 'yes').length >= threshold
? {likelihood, consequence} : null`. -/
def CountYesRule.eval (r : CountYesRule) (answers : Answers) : Option Outcome :=
  if ((r.question_ids.filter fun id => jsStrEq (answers id) "yes").length : Int)
      ≥ r.threshold then
    some ⟨jsResultField r.likelihood, jsResultField r.consequence⟩
  else
    none

/-- `ChoiceMapRule` data fields: `mapping` is a dict from answer value to a
dict of scoring dimensions. -/
structure ChoiceMapRule where
  question_id : String
  mapping : List (String × List (String × String))
deriving DecidableEq, Repr

/-- `ChoiceMapRule.referenced_question_ids`. -/
def ChoiceMapRule.referenced_question_ids (r : ChoiceMapRule) : List String :=
  [r.question_id]

/-- The normalisation inside `ChoiceMapRule.to_js`: each mapping entry is
rebuilt as `{"likelihood": dims.get("likelihood"),
"consequence": dims.get("consequence")}`, so both keys are always present
and a missing dimension is explicit `None`/`null`. -/
def ChoiceMapRule.normalised (r : ChoiceMapRule) :
    List (String × List (String × Option String)) :=
  r.mapping.map fun p =>
    (p.1, [("likelihood", alookup p.2 "likelihood"),
           ("consequence", alookup p.2 "consequence")])

/-- JS coercion of an answer value to a property key (`Array.toString` is
the elements joined by commas). -/
def jsKeyString : AnswerVal → String
  | .str s => s
  | .arr l => joinWith "," l

/-- Evaluation of the JS compiled by `ChoiceMapRule.to_js`:
`{normalised}[this.answers[question_id]] || null` — an absent answer or a
value that is not a key of the mapping yields `null` (does not fire). -/
def ChoiceMapRule.eval (r : ChoiceMapRule) (answers : Answers) :
    Option (List (String × Option String)) :=
  match answers r.question_id with
  | none => none
  | some v => alookup r.normalised (jsKeyString v)

/-- `ContainsAnyRule` data fields. -/
structure ContainsAnyRule where
  question_id : String
  values : List String
  likelihood : Option String
  consequence : Option String
deriving DecidableEq, Repr

/-- `ContainsAnyRule.__post_init__`: both dimensions `None` raises
`ValueError`. -/
def ContainsAnyRule.mk? (question_id : String) (values : List String)
    (likelihood consequence : Option String) : Except String ContainsAnyRule :=
  if likelihood = none ∧ consequence = none then
    .error "ContainsAnyRule requires at least one of likelihood or consequence"
  else
    .ok ⟨question_id, values, likelihood, consequence⟩

/-- `ContainsAnyRule.referenced_question_ids`. -/
def ContainsAnyRule.referenced_question_ids (r : ContainsAnyRule) : List String :=
  [r.question_id]

/-- Evaluation of the JS compiled by `ContainsAnyRule.to_js`:
`values.some(v => (this.answers[question_id] || []).includes(v))
? {likelihood, consequence} : null`. -/
def ContainsAnyRule.eval (r : ContainsAnyRule) (answers : Answers) :
    Option Outcome :=
  if r.values.any fun v => jsOrEmptyIncludes (answers r.question_id) v then
    some ⟨jsResultField r.likelihood, jsResultField r.consequence⟩
  else
    none

/-- The closed `RiskRule` variant set. -/
inductive RiskRule where
  | anyYes (r : AnyYesRule)
  | countYes (r : CountYesRule)
  | choiceMap (r : ChoiceMapRule)
  | containsAny (r : ContainsAnyRule)
deriving DecidableEq, Repr

/-- Dispatch of `referenced_question_ids()` over the rule variants. -/
def RiskRule.referenced_question_ids : RiskRule → List String
  | .anyYes r => r.referenced_question_ids
  | .countYes r => r.referenced_question_ids
  | .choiceMap r => r.referenced_question_ids
  | .containsAny r => r.referenced_question_ids

-- ---------------------------------------------------------------------------
-- models.py: questions, risks, controls
-- ---------------------------------------------------------------------------

/-- The fields of a question that the render/validation pipeline consumes:
its unique `id` and display `text` (the variant-specific fields play no
role in the claims below). -/
structure Question where
  id : String
  text : String
deriving DecidableEq, Repr

/-- `Risk`: a named risk with ordered rules and default outcome dimensions;
the dataclass defaults are `default_likelihood="rare"` and
`default_consequence="minor"`. -/
structure Risk where
  id : String
  name : String
  description : String
  rules : List RiskRule
  default_likelihood : String := "rare"
  default_consequence : String := "minor"

/-- `ControlEffect` data fields (`risk_id`, `reduces_likelihood`,
`reduces_consequence`). -/
structure ControlEffect where
  risk_id : String
  reduces_likelihood : Bool
  reduces_consequence : Bool
deriving DecidableEq, Repr

/-- Modelled from the spec: `ControlEffect.__post_init__` lives in the part
of `models.py` absent from the sources (only its callers and tests are
present); per the spec, at least one of the two reduction flags must be
true per effect, so constructing with both false raises `ValueError`. -/
def ControlEffect.mk? (risk_id : String)
    (reduces_likelihood reduces_consequence : Bool) : Except String ControlEffect :=
  if reduces_likelihood = false ∧ reduces_consequence = false then
    .error "ControlEffect requires at least one of reduces_likelihood or reduces_consequence"
  else
    .ok ⟨risk_id, reduces_likelihood, reduces_consequence⟩

/-- `Control` data fields. -/
structure Control where
  id : String
  name : String
  question_id : String
  present_value : String
  effects : List ControlEffect
deriving DecidableEq, Repr

-- ---------------------------------------------------------------------------
-- parse.py: control-effect parsing
-- ---------------------------------------------------------------------------

/-- The YAML dict consumed by `parse_control_effect`: a required `risk_id`
and the two optional boolean flags (`none` when the key is absent). -/
structure EffectYaml where
  risk_id : String
  reduces_likelihood : Option Bool
  reduces_consequence : Option Bool
deriving DecidableEq, Repr

/-- `parse_control_effect`: builds a `ControlEffect` with each absent flag
defaulted to `False` (`data.get(..., False)`), so construction validates
the defaulted flags. -/
def parse_control_effect (d : EffectYaml) : Except String ControlEffect :=
  ControlEffect.mk? d.risk_id (d.reduces_likelihood.getD false)
    (d.reduces_consequence.getD false)

-- ---------------------------------------------------------------------------
-- render.py: referential validation and control grouping
-- ---------------------------------------------------------------------------

/-- The valid-id universe `{q.id for q in questions}` (membership in the
Python set agrees with membership in the id list). -/
def questionIds (questions : List Question) : List String :=
  questions.map (·.id)

/-- The error line appended for a risk rule referencing an unknown id. -/
def riskErrLine (risk_id qid : String) : String :=
  "Risk '" ++ risk_id ++ "' references unknown question '" ++ qid ++ "'"

/-- The error line appended for a control referencing an unknown id. -/
def ctrlErrLine (ctrl_id qid : String) : String :=
  "Control '" ++ ctrl_id ++ "' references unknown question '" ++ qid ++ "'"

/-- The first loop of `validate_question_ids`: one error line per
`(risk, rule, unknown question id)` in iteration order. -/
def riskErrors (valid_ids : List String) (risks : List Risk) : List String :=
  risks.flatMap fun risk => risk.rules.flatMap fun rule =>
    rule.referenced_question_ids.filterMap fun qid =>
      if qid ∈ valid_ids then none else some (riskErrLine risk.id qid)

/-- The second loop of `validate_question_ids`: one error line per control
whose `question_id` is unknown. -/
def controlErrors (valid_ids : List String) (controls : List Control) : List String :=
  controls.filterMap fun ctrl =>
    if ctrl.question_id ∈ valid_ids then none
    else some (ctrlErrLine ctrl.id ctrl.question_id)

/-- `render.validate_question_ids`: collects every error line across risks
then controls and, if any exist, raises a single `ValueError` whose
message joins them all; otherwise returns normally. -/
def validate_question_ids (questions : List Question) (risks : List Risk)
    (controls : List Control) : Except String Unit :=
  let valid_ids := questionIds questions
  let errors := riskErrors valid_ids risks ++ controlErrors valid_ids controls
  if errors.isEmpty then .ok ()
  else .error ("Invalid question ID references:\n  " ++ joinWith "\n  " errors)

/-- The per-risk control entry dict appended by `prepare_controls`. -/
structure ControlEntry where
  id : String
  name : String
  reduces_likelihood : Bool
  reduces_consequence : Bool
deriving DecidableEq, Repr

/-- The fields of a risk dict that `prepare_controls` reads and writes. -/
structure RiskDict where
  id : String
  controls : List ControlEntry := []
deriving DecidableEq, Repr

/-- The control entries attached to the risk dict with id `risk_id` by the
`prepare_controls` loops: controls in order, each control's effects in
order, keeping exactly the effects with `effect.risk_id == risk_id`
(effects whose `risk_id` matches no risk dict are skipped by the
`if effect.risk_id in risk_by_id` guard). -/
def attachedControls (controls : List Control) (risk_id : String) :
    List ControlEntry :=
  controls.flatMap fun ctrl => ctrl.effects.filterMap fun effect =>
    if effect.risk_id = risk_id then
      some ⟨ctrl.id, ctrl.name, effect.reduces_likelihood, effect.reduces_consequence⟩
    else none

/-- `render.prepare_controls` restricted to its effect on the risk dicts
(the control getters it also returns are one per control, built from the
`presence_js` of the `Control` class, whose body is not among the
sources): every risk dict's `controls` list is reset and then receives the
matching effects, grouped by `risk_id`.  Faithful to the source when risk
dict ids are distinct (the ids come from distinct parsed risks). -/
def prepare_controls (controls : List Control) (risk_dicts : List RiskDict) :
    List RiskDict :=
  risk_dicts.map fun rd => { rd with controls := attachedControls controls rd.id }

-- ---------------------------------------------------------------------------
-- Helper lemmas
-- ---------------------------------------------------------------------------

theorem strData_append (a b : String) : (a ++ b).data = a.data ++ b.data := rfl

theorem isInfix_append_left {α : Type} {l m : List α} (n : List α)
    (h : l <:+: m) : l <:+: n ++ m := by
  obtain ⟨s, t, rfl⟩ := h
  exact ⟨n ++ s, t, by simp⟩

/-- Every element of a joined list occurs as a substring of the join. -/
theorem mem_joinWith {sep : String} :
    ∀ {l : List String} {e : String}, e ∈ l → e.data <:+: (joinWith sep l).data := by
  intro l
  induction l with
  | nil => intro e h; cases h
  | cons x xs ih =>
    intro e h
    cases xs with
    | nil =>
      rw [List.mem_singleton] at h
      subst h
      exact List.infix_rfl
    | cons y ys =>
      rcases List.mem_cons.mp h with h' | h'
      · subst h'
        refine ⟨[], (sep ++ joinWith sep (y :: ys)).data, ?_⟩
        simp [joinWith, strData_append]
      · obtain ⟨s, t, hst⟩ := ih h'
        refine ⟨(x.data ++ sep.data) ++ s, t, ?_⟩
        simp only [joinWith, strData_append, ← hst]
        simp

/-- Offending risk references produce their error line in `riskErrors`. -/
theorem riskErrLine_mem {valid_ids : List String} {risks : List Risk}
    {risk : Risk} {rule : RiskRule} {qid : String}
    (hrisk : risk ∈ risks) (hrule : rule ∈ risk.rules)
    (hqid : qid ∈ rule.referenced_question_ids) (hbad : qid ∉ valid_ids) :
    riskErrLine risk.id qid ∈ riskErrors valid_ids risks := by
  unfold riskErrors
  refine List.mem_flatMap.mpr ⟨risk, hrisk, ?_⟩
  refine List.mem_flatMap.mpr ⟨rule, hrule, ?_⟩
  refine List.mem_filterMap.mpr ⟨qid, hqid, ?_⟩
  simp [hbad]

/-- Offending controls produce their error line in `controlErrors`. -/
theorem ctrlErrLine_mem {valid_ids : List String} {controls : List Control}
    {ctrl : Control} (hctrl : ctrl ∈ controls)
    (hbad : ctrl.question_id ∉ valid_ids) :
    ctrlErrLine ctrl.id ctrl.question_id ∈ controlErrors valid_ids controls := by
  unfold controlErrors
  refine List.mem_filterMap.mpr ⟨ctrl, hctrl, ?_⟩
  simp [hbad]

/-- `riskErrors` is empty exactly when every rule reference is valid. -/
theorem riskErrors_eq_nil_iff {valid_ids : List String} {risks : List Risk} :
    riskErrors valid_ids risks = [] ↔
      ∀ risk ∈ risks, ∀ rule ∈ risk.rules,
        ∀ qid ∈ rule.referenced_question_ids, qid ∈ valid_ids := by
  unfold riskErrors
  simp only [List.flatMap_eq_nil_iff, List.filterMap_eq_nil_iff]
  constructor
  · intro h risk hrisk rule hrule qid hqid
    by_contra hbad
    have := h risk hrisk rule hrule qid hqid
    simp [hbad] at this
  · intro h risk hrisk rule hrule qid hqid
    simp [h risk hrisk rule hrule qid hqid]

/-- `controlErrors` is empty exactly when every control reference is valid. -/
theorem controlErrors_eq_nil_iff {valid_ids : List String}
    {controls : List Control} :
    controlErrors valid_ids controls = [] ↔
      ∀ ctrl ∈ controls, ctrl.question_id ∈ valid_ids := by
  unfold controlErrors
  simp only [List.filterMap_eq_nil_iff]
  constructor
  · intro h ctrl hctrl
    by_contra hbad
    have := h ctrl hctrl
    simp [hbad] at this
  · intro h ctrl hctrl
    simp [h ctrl hctrl]

/-- When some error line exists, `validate_question_ids` raises and the
line is a substring of the single aggregated message. -/
theorem validate_error_of_mem {questions : List Question} {risks : List Risk}
    {controls : List Control} {line : String}
    (h : line ∈ riskErrors (questionIds questions) risks ++
        controlErrors (questionIds questions) controls) :
    ∃ msg, validate_question_ids questions risks controls = .error msg ∧
      line.data <:+: msg.data := by
  unfold validate_question_ids
  have hne : ¬ (riskErrors (questionIds questions) risks ++
      controlErrors (questionIds questions) controls).isEmpty := by
    rw [List.isEmpty_iff]
    intro hnil
    rw [hnil] at h
    cases h
  refine ⟨"Invalid question ID references:\n  " ++
    joinWith "\n  " (riskErrors (questionIds questions) risks ++
      controlErrors (questionIds questions) controls), ?_, ?_⟩
  · simp only [if_neg hne]
  · rw [strData_append]
    exact isInfix_append_left _ (mem_joinWith h)

/-- `validate_question_ids` returns normally exactly when both error loops
collect nothing. -/
theorem validate_ok_iff {questions : List Question} {risks : List Risk}
    {controls : List Control} :
    validate_question_ids questions risks controls = .ok () ↔
      riskErrors (questionIds questions) risks = [] ∧
      controlErrors (questionIds questions) controls = [] := by
  unfold validate_question_ids
  dsimp only
  split
  next h =>
    rw [List.isEmpty_iff, List.append_eq_nil] at h
    simp [h.1, h.2]
  next h =>
    rw [List.isEmpty_iff, List.append_eq_nil] at h
    constructor
    · intro habs; simp at habs
    · intro hx; exact absurd hx h

-- ---------------------------------------------------------------------------
-- Claim theorems
-- ---------------------------------------------------------------------------

/-- C1: `validate_question_ids` raises no error exactly when every question
id referenced by a risk rule or a control exists; and every offending
reference — a risk rule or a control naming an unknown question id —
contributes its owner-plus-id error line as a substring of the single
aggregated error message, never only the first one. -/
theorem validate_question_ids_aggregates (questions : List Question)
    (risks : List Risk) (controls : List Control) :
    (validate_question_ids questions risks controls = .ok () ↔
      ((∀ risk ∈ risks, ∀ rule ∈ risk.rules,
          ∀ qid ∈ rule.referenced_question_ids, qid ∈ questionIds questions) ∧
        ∀ ctrl ∈ controls, ctrl.question_id ∈ questionIds questions))
    ∧ (∀ risk ∈ risks, ∀ rule ∈ risk.rules,
        ∀ qid ∈ rule.referenced_question_ids, qid ∉ questionIds questions →
          ∃ msg, validate_question_ids questions risks controls = .error msg ∧
            (riskErrLine risk.id qid).data <:+: msg.data)
    ∧ (∀ ctrl ∈ controls, ctrl.question_id ∉ questionIds questions →
        ∃ msg, validate_question_ids questions risks controls = .error msg ∧
          (ctrlErrLine ctrl.id ctrl.question_id).data <:+: msg.data) := by
  refine ⟨?_, ?_, ?_⟩
  · rw [validate_ok_iff, riskErrors_eq_nil_iff, controlErrors_eq_nil_iff]
  · intro risk hrisk rule hrule qid hqid hbad
    exact validate_error_of_mem
      (List.mem_append.mpr (.inl (riskErrLine_mem hrisk hrule hqid hbad)))
  · intro ctrl hctrl hbad
    exact validate_error_of_mem
      (List.mem_append.mpr (.inr (ctrlErrLine_mem hctrl hbad)))

/-- Witness for C1: a form with one valid question, a risk rule referencing
the unknown id `qX`, and a control referencing the unknown id `qY` fails
with a message containing the risk's error line. -/
theorem validate_question_ids_aggregates_witness :
    ∃ msg, validate_question_ids [⟨"q1", "Q"⟩]
        [{ id := "r1", name := "R", description := "D",
           rules := [.anyYes ⟨["qX"], some "likely", none⟩] }]
        [⟨"c1", "C", "qY", "yes", []⟩] = .error msg ∧
      (riskErrLine "r1" "qX").data <:+: msg.data := by
  refine (validate_question_ids_aggregates [⟨"q1", "Q"⟩]
      [{ id := "r1", name := "R", description := "D",
         rules := [.anyYes ⟨["qX"], some "likely", none⟩] }]
      [⟨"c1", "C", "qY", "yes", []⟩]).2.1
    { id := "r1", name := "R", description := "D",
      rules := [.anyYes ⟨["qX"], some "likely", none⟩] } (by simp)
    (.anyYes ⟨["qX"], some "likely", none⟩) (by simp) "qX" ?_ ?_
  · simp [RiskRule.referenced_question_ids, AnyYesRule.referenced_question_ids]
  · simp [questionIds]

/-- `controlErrors` reads only a control's `id` and `question_id`, so
stripping every control's effects leaves it unchanged. -/
theorem controlErrors_effects_irrelevant (valid_ids : List String)
    (controls : List Control) :
    controlErrors valid_ids (controls.map fun c => { c with effects := [] }) =
      controlErrors valid_ids controls := by
  unfold controlErrors
  rw [List.filterMap_map]
  rfl

/-- C2 counterexample: a control whose effect references the unknown risk
id `nonexistent` passes `validate_question_ids` without error, and
`prepare_controls` attaches nothing for it — the reference is silently
ignored rather than aggregated into a build-time failure. -/
theorem unknown_risk_id_not_validated :
    validate_question_ids [⟨"q1", "Q"⟩]
        [{ id := "r1", name := "R", description := "D",
           rules := [.anyYes ⟨["q1"], some "likely", none⟩] }]
        [⟨"c1", "C", "q1", "yes", [⟨"nonexistent", true, false⟩]⟩] = .ok ()
    ∧ prepare_controls [⟨"c1", "C", "q1", "yes", [⟨"nonexistent", true, false⟩]⟩]
        [{ id := "r1" }] = [{ id := "r1", controls := [] }] :=
  ⟨rfl, rfl⟩

/-- C2 amended: unknown risk ids referenced from control effects are not a
referential error: `validate_question_ids` gives the same verdict whether
or not the controls carry any effects, and adding a control whose only
effect targets a risk id matching no risk dict leaves every risk dict's
attached controls unchanged (the effect is silently skipped). -/
theorem unknown_risk_id_silently_skipped (questions : List Question)
    (risks : List Risk) (controls : List Control) (risk_dicts : List RiskDict)
    (cid cname qid pv badId : String) (rl rc : Bool)
    (hbad : ∀ rd ∈ risk_dicts, rd.id ≠ badId) :
    validate_question_ids questions risks
        (controls.map fun c => { c with effects := [] }) =
      validate_question_ids questions risks controls
    ∧ prepare_controls (controls ++ [⟨cid, cname, qid, pv, [⟨badId, rl, rc⟩]⟩])
        risk_dicts = prepare_controls controls risk_dicts := by
  constructor
  · unfold validate_question_ids
    dsimp only
    rw [controlErrors_effects_irrelevant]
  · unfold prepare_controls
    apply List.map_congr_left
    intro rd hrd
    have heq : attachedControls
        (controls ++ [⟨cid, cname, qid, pv, [⟨badId, rl, rc⟩]⟩]) rd.id =
        attachedControls controls rd.id := by
      unfold attachedControls
      rw [List.flatMap_append]
      have h2 : badId ≠ rd.id := fun h => hbad rd hrd h.symm
      simp [h2]
    rw [heq]

/-- Witness for the amended C2: with one risk dict `r1` and a fresh control
whose sole effect targets `nonexistent`, validation is unaffected and the
risk dict keeps its attached controls. -/
theorem unknown_risk_id_silently_skipped_witness :
    validate_question_ids [] []
        (([] : List Control).map fun c => { c with effects := [] }) =
      validate_question_ids [] [] []
    ∧ prepare_controls ([] ++ [⟨"c1", "C", "q1", "yes", [⟨"nonexistent", true, false⟩]⟩])
        [{ id := "r1" }] = prepare_controls [] [{ id := "r1" }] :=
  unknown_risk_id_silently_skipped [] [] [] [{ id := "r1" }]
    "c1" "C" "q1" "yes" "nonexistent" true false (by simp)

/-- C3: constructing a `ControlEffect` with both reduction flags false is a
construction-time error, so parsing an effect dict that specifies neither
flag (both defaulted to false) fails rather than yielding a no-op effect. -/
theorem control_effect_requires_dimension (rid : String) (d : EffectYaml)
    (h1 : d.reduces_likelihood = none) (h2 : d.reduces_consequence = none) :
    ControlEffect.mk? rid false false =
      .error "ControlEffect requires at least one of reduces_likelihood or reduces_consequence"
    ∧ parse_control_effect d =
      .error "ControlEffect requires at least one of reduces_likelihood or reduces_consequence" := by
  constructor
  · rfl
  · unfold parse_control_effect
    rw [h1, h2]
    rfl

/-- Witness for C3: the effect dict `{risk_id: "r1"}` with neither flag
specified fails to parse. -/
theorem control_effect_requires_dimension_witness :
    ControlEffect.mk? "r1" false false =
      .error "ControlEffect requires at least one of reduces_likelihood or reduces_consequence"
    ∧ parse_control_effect ⟨"r1", none, none⟩ =
      .error "ControlEffect requires at least one of reduces_likelihood or reduces_consequence" :=
  control_effect_requires_dimension "r1" ⟨"r1", none, none⟩ rfl rfl

/-- C4: the risk matrix is total over all 15 (likelihood, consequence)
pairs of the ascending scales, and stepping either dimension up one step
never decreases the resulting level, levels ranked in the order of
`RISK_LEVELS` (`not_applicable < low < medium < high`). -/
theorem risk_matrix_total_monotonic :
    LIKELIHOODS.length * CONSEQUENCES.length = 15
    ∧ (∀ l ∈ LIKELIHOODS, ∀ c ∈ CONSEQUENCES, (matrixLookup l c).isSome)
    ∧ (∀ i < 4, ∀ c ∈ CONSEQUENCES,
        levelRank (matrixLookup (LIKELIHOODS.getD i "") c) ≤
          levelRank (matrixLookup (LIKELIHOODS.getD (i + 1) "") c))
    ∧ (∀ j < 2, ∀ l ∈ LIKELIHOODS,
        levelRank (matrixLookup l (CONSEQUENCES.getD j "")) ≤
          levelRank (matrixLookup l (CONSEQUENCES.getD (j + 1) ""))) := by
  decide

/-- Witness for C4: stepping likelihood from `rare` to `unlikely` at
consequence `minor` does not decrease the level. -/
theorem risk_matrix_total_monotonic_witness :
    levelRank (matrixLookup (LIKELIHOODS.getD 0 "") "minor") ≤
      levelRank (matrixLookup (LIKELIHOODS.getD 1 "") "minor") :=
  risk_matrix_total_monotonic.2.2.1 0 (by decide) "minor" (by decide)

/-- A sample answer store for concrete instantiations: `q1` is answered
`"yes"` and `q2` is the multi-select answer `["a", "c"]`. -/
def sampleAnswers : Answers := fun id =>
  if id = "q1" then some (.str "yes")
  else if id = "q2" then some (.arr ["a", "c"])
  else none

/-- C5: a compiled `CountYesRule` fires (yields its outcome rather than
null) iff the number of its question ids answered exactly `"yes"` is at
least `threshold`; a threshold of 0 always fires and a threshold above the
number of listed ids never fires. -/
theorem countYesRule_fires_iff (r : CountYesRule) (answers : Answers) :
    ((r.eval answers).isSome ↔
      ((r.question_ids.filter fun id => jsStrEq (answers id) "yes").length : Int)
        ≥ r.threshold)
    ∧ (r.threshold = 0 → (r.eval answers).isSome)
    ∧ (r.threshold > (r.question_ids.length : Int) → r.eval answers = none) := by
  have hlen : ((r.question_ids.filter fun id => jsStrEq (answers id) "yes").length : Int)
      ≤ (r.question_ids.length : Int) := by
    exact_mod_cast List.length_filter_le _ _
  unfold CountYesRule.eval
  by_cases hc : ((r.question_ids.filter fun id => jsStrEq (answers id) "yes").length : Int)
      ≥ r.threshold
  · exact ⟨by simp [hc], fun _ => by simp [hc],
      fun h => absurd hc (not_le.mpr (lt_of_le_of_lt hlen h))⟩
  · refine ⟨by simp [hc], fun h0 => absurd ?_ hc, fun _ => by simp [hc]⟩
    rw [h0]
    exact Int.natCast_nonneg _

/-- Witness for C5: with `q1` answered yes among two listed ids and
threshold 1, the rule fires. -/
theorem countYesRule_fires_iff_witness :
    (CountYesRule.eval ⟨["q1", "q2"], 1, some "likely", none⟩ sampleAnswers).isSome ↔
      (((["q1", "q2"].filter fun id =>
        jsStrEq (sampleAnswers id) "yes").length : Int) ≥ 1) :=
  (countYesRule_fires_iff ⟨["q1", "q2"], 1, some "likely", none⟩ sampleAnswers).1

/-- C6: a compiled `ContainsAnyRule` with a non-empty values list never
fires on an absent answer (the lookup defaults to the empty array), and on
an array answer it fires iff the array intersects the rule's values. -/
theorem containsAnyRule_fires_iff (r : ContainsAnyRule) (answers : Answers)
    (_hvals : r.values ≠ []) :
    (answers r.question_id = none → r.eval answers = none)
    ∧ (∀ l, answers r.question_id = some (.arr l) →
        ((r.eval answers).isSome ↔ ∃ v ∈ r.values, v ∈ l)) := by
  constructor
  · intro h
    unfold ContainsAnyRule.eval
    rw [h]
    simp [jsOrEmptyIncludes]
  · intro l h
    unfold ContainsAnyRule.eval
    rw [h]
    have hiff : (r.values.any fun v => jsOrEmptyIncludes (some (.arr l)) v) = true ↔
        ∃ v ∈ r.values, v ∈ l := by
      simp [jsOrEmptyIncludes, List.any_eq_true]
    by_cases hc : (r.values.any fun v => jsOrEmptyIncludes (some (.arr l)) v) = true
    · simp [hc, hiff.mp hc]
    · simp only [Bool.not_eq_true] at hc
      simp [hc]
      intro v hv
      by_contra hmem
      exact absurd (hiff.mpr ⟨v, hv, hmem⟩) (by simp [hc])

/-- Witness for C6: values `["a", "b"]` against the live answer
`q2 = ["a", "c"]` fire because the intersection is non-empty. -/
theorem containsAnyRule_fires_iff_witness :
    (ContainsAnyRule.eval ⟨"q2", ["a", "b"], some "likely", none⟩
        sampleAnswers).isSome ↔
      ∃ v ∈ ["a", "b"], v ∈ ["a", "c"] :=
  (containsAnyRule_fires_iff ⟨"q2", ["a", "b"], some "likely", none⟩
    sampleAnswers (by simp)).2 ["a", "c"] rfl

/-- `ChoiceMapRule` defines no `__post_init__` validation: construction
always succeeds, with no constraint on the mapping's dimensions. -/
def ChoiceMapRule.mk? (question_id : String)
    (mapping : List (String × List (String × String))) :
    Except String ChoiceMapRule :=
  .ok ⟨question_id, mapping⟩

/-- C7: constructing an `AnyYesRule`, `CountYesRule` or `ContainsAnyRule`
with both `likelihood` and `consequence` unspecified raises `ValueError`
at construction time, while `ChoiceMapRule` construction is exempt and
always succeeds. -/
theorem rule_construction_requires_dimension (ids : List String) (t : Int)
    (qid : String) (vals : List String)
    (mapping : List (String × List (String × String))) :
    AnyYesRule.mk? ids none none =
      .error "AnyYesRule requires at least one of likelihood or consequence"
    ∧ CountYesRule.mk? ids t none none =
      .error "CountYesRule requires at least one of likelihood or consequence"
    ∧ ContainsAnyRule.mk? qid vals none none =
      .error "ContainsAnyRule requires at least one of likelihood or consequence"
    ∧ ChoiceMapRule.mk? qid mapping = .ok ⟨qid, mapping⟩ :=
  ⟨rfl, rfl, rfl, rfl⟩

/-- C8: the mapping compiled by `ChoiceMapRule.to_js` is normalised so that
every entry carries exactly a `likelihood` key and a `consequence` key (a
missing dimension appearing explicitly as null), and the rule does not
fire when the answer is absent or is a value that is not a key of the
mapping. -/
theorem choiceMapRule_normalised_lookup (r : ChoiceMapRule) (answers : Answers) :
    (∀ p ∈ r.normalised, p.2.map Prod.fst = ["likelihood", "consequence"])
    ∧ (answers r.question_id = none → r.eval answers = none)
    ∧ (∀ s, answers r.question_id = some (.str s) →
        s ∉ r.mapping.map Prod.fst → r.eval answers = none) := by
  refine ⟨?_, ?_, ?_⟩
  · intro p hp
    unfold ChoiceMapRule.normalised at hp
    obtain ⟨q, _, rfl⟩ := List.mem_map.mp hp
    rfl
  · intro h
    unfold ChoiceMapRule.eval
    rw [h]
  · intro s hs hnot
    unfold ChoiceMapRule.eval
    rw [hs]
    show alookup r.normalised (jsKeyString (.str s)) = none
    have hkey : jsKeyString (.str s) = s := rfl
    rw [hkey]
    unfold alookup
    rw [List.find?_eq_none.mpr ?_, Option.map_none']
    intro p hp
    unfold ChoiceMapRule.normalised at hp
    obtain ⟨q, hq, rfl⟩ := List.mem_map.mp hp
    have hne : q.1 ≠ s := fun he => hnot (List.mem_map.mpr ⟨q, hq, he⟩)
    simp [hne]

/-- Witness for C8: a mapping keyed only by `Winter` does not fire when the
question is unanswered. -/
theorem choiceMapRule_normalised_lookup_witness :
    ChoiceMapRule.eval ⟨"season", [("Winter", [("likelihood", "likely")])]⟩
      (fun _ => none) = none :=
  (choiceMapRule_normalised_lookup
    ⟨"season", [("Winter", [("likelihood", "likely")])]⟩ (fun _ => none)).2.1 rfl

/-- C9 counterexample: a zero-child `All` and a zero-child `Any` compile to
the identical empty string (the join of zero parenthesized children), so
the two compiled expressions cannot evaluate to vacuous true and vacuous
false respectively as the claim requires. -/
theorem zero_child_all_any_identical :
    Condition.to_js (.all []) = Condition.to_js (.any [])
    ∧ Condition.to_js (.all []) = "" :=
  ⟨rfl, rfl⟩

/-- C9 amended: zero-child `All`/`Any` conditions compile to the empty
string, not to expressions denoting true or false (in particular not the
literals `true`/`false`); the vacuous-AND/vacuous-OR semantics is not
implemented. -/
theorem zero_child_all_any_to_js :
    Condition.to_js (.all []) = ""
    ∧ Condition.to_js (.any []) = ""
    ∧ Condition.to_js (.all []) ≠ "true"
    ∧ Condition.to_js (.any []) ≠ "false" :=
  ⟨rfl, rfl, by decide, by decide⟩

/-- C10: a `Risk` constructed without explicit defaults has
`default_likelihood = "rare"` and `default_consequence = "minor"`, the
first (lowest) steps of the ascending scales; both fields are plain
strings, so the fallback outcome is always a complete pair. -/
theorem risk_default_outcome_complete (id name description : String)
    (rules : List RiskRule) :
    ({ id := id, name := name, description := description,
       rules := rules } : Risk).default_likelihood = "rare"
    ∧ ({ id := id, name := name, description := description,
         rules := rules } : Risk).default_consequence = "minor"
    ∧ LIKELIHOODS.head? = some "rare"
    ∧ CONSEQUENCES.head? = some "minor" :=
  ⟨rfl, rfl, rfl, rfl⟩

end Riskformgen
